import Mathlib

/-!
Verification of the telegram-to-gdocs-archiver document-composition and
durable-delivery pipeline.  The definitions below are a shallow embedding of
the Python source:

* `clean_url`, `extract_links`  embed `GoogleDocsWriter._clean_url` and
  `GoogleDocsWriter._extract_links` (src/google/docs_client.py).
* `renderMessage`, `messageFormatRequests`, `create_formatted_message_requests`
  embed `GoogleDocsWriter._create_formatted_message_requests`.
* `write_batch_requests`, `write_batch_fallback_requests` embed the request
  list built by `GoogleDocsWriter.write_batch` and its HttpError fallback.
* `flush_buffer`, `process_pending`, `catch_up`, `run_startup` embed the
  delivery pipeline of `TelegramToGDocsArchiver` (src/main.py) together with
  `StateManager` (src/storage/state.py); the durable state is modelled for the
  single configured channel, and each remote-write attempt's outcome is an
  explicit parameter.

Machine strings are modelled as Lean `String`s (Python `len` counts code
points, as does `String.length`).
-/

set_option maxRecDepth 100000

namespace Archiver

/-- Python `sep.join(parts)`. -/
def pyJoin (sep : String) : List String → String
  | [] => ""
  | [x] => x
  | x :: y :: t => x ++ sep ++ pyJoin sep (y :: t)

/-- Zero-pad a numeral to two digits, as `strftime` field formatting does. -/
def pad2 (n : Nat) : String :=
  if n < 10 then "0" ++ toString n else toString n

/-- Zero-pad a numeral to four digits, as `strftime` `%Y` does. -/
def pad4 (n : Nat) : String :=
  if n < 10 then "000" ++ toString n
  else if n < 100 then "00" ++ toString n
  else if n < 1000 then "0" ++ toString n
  else toString n

/-- A broken-down timestamp; stands for Python's `datetime`. -/
structure Datetime where
  year : Nat
  month : Nat
  day : Nat
  hour : Nat
  minute : Nat
  second : Nat
deriving DecidableEq

/-- Python `dt.strftime("%Y-%m-%d %H:%M:%S")` (the `DATE_FORMAT` constant). -/
def Datetime.strftimeFull (d : Datetime) : String :=
  pad4 d.year ++ "-" ++ pad2 d.month ++ "-" ++ pad2 d.day ++ " " ++
    pad2 d.hour ++ ":" ++ pad2 d.minute ++ ":" ++ pad2 d.second

/-- Python `dt.strftime("%H:%M:%S")` (used in the batch footer). -/
def Datetime.strftimeHMS (d : Datetime) : String :=
  pad2 d.hour ++ ":" ++ pad2 d.minute ++ ":" ++ pad2 d.second

/-- Constant `MESSAGE_SEPARATOR = "═" * 50` from src/config/constants.py. -/
def MESSAGE_SEPARATOR : String := String.mk (List.replicate 50 '═')

/-- The message record of src/telegram/models.py (`MessageData`). -/
structure MessageData where
  id : Int
  text : String
  date : Datetime
  channel_id : Int
  channel_name : Option String := none
  channel_username : Option String := none
  forward_from_channel_id : Option Int := none
  forward_from_channel_name : Option String := none
  forward_from_channel_username : Option String := none
  forward_from_user_name : Option String := none
  forward_original_date : Option Datetime := none
  forward_message_id : Option Int := none
  has_media : Bool := false
  media_type : Option String := none
  media_caption : Option String := none
  original_link : Option String := none
  forward_original_link : Option String := none
deriving DecidableEq

/-- Python truthiness of an optional string (`None` and `""` are falsy). -/
def truthyS : Option String → Bool
  | none => false
  | some s => s ≠ ""

/-- Python `a or b` for an optional string with a string fallback. -/
def pyOrS (a : Option String) (b : String) : String :=
  match a with
  | some s => if s = "" then b else s
  | none => b

/-! ### URL cleaning (`GoogleDocsWriter._clean_url`) -/

/-- Characters of the first `rstrip` set `'.,;!? \t\n\r'`. -/
def stripSet1 : List Char := ['.', ',', ';', '!', '?', ' ', '\t', '\n', '\r']

/-- Characters of the second `rstrip` set `'.,;!? \t\n\r)'`. -/
def stripSet2 : List Char := ['.', ',', ';', '!', '?', ' ', '\t', '\n', '\r', ')']

/-- Python `s.rstrip(set)` on a character list. -/
def rstripL (cs : List Char) (set : List Char) : List Char :=
  (cs.reverse.dropWhile (fun c => c ∈ set)).reverse

/-- Python `s.replace(pat, rep)` (all non-overlapping occurrences, left to
right); `fuel` bounds recursion and is instantiated with the string length. -/
def replaceAllAux (pat rep : List Char) : Nat → List Char → List Char
  | 0, s => s
  | fuel + 1, s =>
    match s with
    | [] => []
    | c :: rest =>
      if pat.isPrefixOf (c :: rest) then
        rep ++ replaceAllAux pat rep fuel ((c :: rest).drop pat.length)
      else
        c :: replaceAllAux pat rep fuel rest

/-- Embeds `GoogleDocsWriter._clean_url`, step for step:
strip trailing punctuation, strip a lone trailing `)` when the rest holds no
parenthesis, collapse a leading `http https://`, strip trailing punctuation
and `)`, then force an `http(s)://` scheme. -/
def clean_url (url : String) : String :=
  if url = "" then url else
  let u1 := rstripL url.data stripSet1
  let endsParen := match u1.getLast? with
    | some ')' => true
    | _ => false
  let u2 := if endsParen && !('(' ∈ u1.dropLast ∨ ')' ∈ u1.dropLast : Bool)
    then u1.dropLast else u1
  let pat := "http https://".data
  let u3 := if pat.isPrefixOf u2
    then replaceAllAux pat "https://".data u2.length u2 else u2
  let u4 := rstripL u3 stripSet2
  let u5 :=
    if "http://".data.isPrefixOf u4 ∨ "https://".data.isPrefixOf u4 then u4
    else if ['/', '/'].isPrefixOf u4 then "https:".data ++ u4
    else "https://".data ++ u4
  String.mk u5

/-! ### Regex scanning (`re.finditer` over the two patterns) -/

/-- Whitespace characters recognised by the regex class `\s`. -/
def pyWhitespace : List Char := [' ', '\t', '\n', '\r', '\x0b', '\x0c']

/-- Characters excluded by the bare-URL character class
`[^\s<>"{}|\\^`[\]]` (written with escapes). -/
def urlExcluded (c : Char) : Bool :=
  c ∈ pyWhitespace ||
    c ∈ ['<', '>', '\"', '\x7b', '\x7d', '|', '\\', '^', '\x60', '[', ']']

/-- Try to match the markup pattern `\[([^\]]+)\]\(([^)]+?)\)` at the head of
`s`; on success return the full match length and the URL group.  Both
character classes exclude their closing delimiter, so greedy and lazy
repetition alike stop at the first delimiter and matching is deterministic. -/
def mdMatchAt (s : List Char) : Option (Nat × List Char) :=
  match s with
  | '[' :: rest =>
    let t1 := rest.takeWhile (fun c => c ≠ ']')
    match t1, rest.drop t1.length with
    | _ :: _, ']' :: '(' :: rest2 =>
      let t2 := rest2.takeWhile (fun c => c ≠ ')')
      match t2, rest2.drop t2.length with
      | _ :: _, ')' :: _ => some (t1.length + t2.length + 4, t2)
      | _, _ => none
    | _, _ => none
  | _ => none

/-- Try to match the bare-URL pattern `https?://[^...]+` at the head of `s`;
on success return the full match length and the matched characters. -/
def urlMatchAt (s : List Char) : Option (Nat × List Char) :=
  match s with
  | 'h' :: 't' :: 't' :: 'p' :: rest =>
    let scheme : Option (List Char × List Char) :=
      match rest with
      | 's' :: ':' :: '/' :: '/' :: r => some (['h','t','t','p','s',':','/','/'], r)
      | ':' :: '/' :: '/' :: r => some (['h','t','t','p',':','/','/'], r)
      | _ => none
    match scheme with
    | none => none
    | some (pre, r) =>
      let run := r.takeWhile (fun c => !urlExcluded c)
      match run with
      | [] => none
      | _ :: _ => some (pre.length + run.length, pre ++ run)
  | _ => none

/-- Embeds `re.finditer`: scan left to right, emitting `(start, length, payload)` for
each non-overlapping match and resuming right after it.  `fuel` is
instantiated with the text length. -/
def finditer (matchAt : List Char → Option (Nat × α)) :
    Nat → List Char → Nat → List (Nat × Nat × α)
  | 0, _, _ => []
  | _ + 1, [], _ => []
  | fuel + 1, c :: rest, pos =>
    match matchAt (c :: rest) with
    | some (len, a) =>
      (pos, len, a) :: finditer matchAt fuel (rest.drop (len - 1)) (pos + len)
    | none => finditer matchAt fuel rest (pos + 1)

/-- The spans contributed by the markup-pattern pass of
`GoogleDocsWriter._extract_links`: each match's URL group is cleaned and kept
unless cleaning yields the empty string. -/
def mdSpans (text : String) : List (String × Nat × Nat) :=
  (finditer mdMatchAt text.data.length text.data 0).filterMap fun r =>
    let url := clean_url (String.mk r.2.2)
    if url = "" then none else some (url, r.1, r.1 + r.2.1)

/-- The spans contributed by the bare-URL pass of
`GoogleDocsWriter._extract_links`. -/
def bareSpans (text : String) : List (String × Nat × Nat) :=
  (finditer urlMatchAt text.data.length text.data 0).filterMap fun r =>
    let url := clean_url (String.mk r.2.2)
    if url = "" then none else some (url, r.1, r.1 + r.2.1)

/-- Embeds `GoogleDocsWriter._extract_links`: the markup-pass spans followed by the
bare-URL-pass spans (the source appends both passes into one list). -/
def extract_links (text : String) : List (String × Nat × Nat) :=
  if text = "" then [] else mdSpans text ++ bareSpans text

/-! ### Message layout composition (`_create_formatted_message_requests`) -/

/-- The named colour roles of `GoogleDocsWriter.COLORS`; the claims never
inspect the RGB floats, only which role a style op carries. -/
inductive ColorRole
  | link | header | forward | date | media | batch_header | batch_footer
deriving DecidableEq

/-- One entry of a Google Docs `batchUpdate` request list:
`insertText`, `updateTextStyle` (from `_create_format_request`), or a
hyperlink `updateTextStyle` (from `_create_link_request`, which always also
sets the link colour). -/
inductive Request
  | insertText (index : Nat) (text : String)
  | format (startIndex endIndex : Nat) (bold italic : Bool)
      (fontSize : Option Nat) (color : Option ColorRole)
  | link (startIndex endIndex : Nat) (url : String)
deriving DecidableEq

/-- Embeds `GoogleDocsWriter.MEDIA_EMOJIS.get(media_type, '📎')`; a `None`
media type misses every key and yields the default. -/
def mediaEmoji : Option String → String
  | some "Photo" => "📷"
  | some "Video" => "📹"
  | some "Audio" => "🎵"
  | some "Document" => "📄"
  | some "Voice" => "🎤"
  | some "Sticker" => "🎨"
  | some "Media" => "📎"
  | _ => "📎"

/-- Python string interpolation of an optional value (`None` prints as
`"None"`). -/
def pyShowOpt : Option String → String
  | none => "None"
  | some s => s

/-- Embeds `source = message.forward_from_channel_name or message.channel_name or
"Unknown"`. -/
def msgSource (m : MessageData) : String :=
  pyOrS m.forward_from_channel_name (pyOrS m.channel_name "Unknown")

/-- Embeds `source_emoji = "📢" if not message.forward_from_channel_name else "🔄"`. -/
def sourceEmoji (m : MessageData) : String :=
  if truthyS m.forward_from_channel_name then "🔄" else "📢"

/-- Embeds `header_line = f"{date_str} | {source_emoji} {source}"`. -/
def headerLine (m : MessageData) : String :=
  m.date.strftimeFull ++ " | " ++ sourceEmoji m ++ " " ++ msgSource m

/-- Embeds `forward_text = f"↪️ Forwarded from: {name}"` (only meaningful when the
forward name is truthy). -/
def forwardText (m : MessageData) : String :=
  "↪️ Forwarded from: " ++ m.forward_from_channel_name.getD ""

/-- Embeds `orig_date = f"📆 Original: {dt}"` (only meaningful when the forward
original date is present). -/
def origDateLine (m : MessageData) : String :=
  "📆 Original: " ++
    (match m.forward_original_date with
     | some d => d.strftimeFull
     | none => "")

/-- Embeds `media_text = f"{emoji} {media_type}"`, plus `": caption"` when the
caption is truthy. -/
def mediaText (m : MessageData) : String :=
  mediaEmoji m.media_type ++ " " ++ pyShowOpt m.media_type ++
    (if truthyS m.media_caption then ": " ++ m.media_caption.getD "" else "")

/-- Embeds `link_text = "🔗 View in Telegram"`. -/
def viewLinkText : String := "🔗 View in Telegram"

/-- Embeds `forward_link_text = "🔗 View Original"`. -/
def viewForwardLinkText : String := "🔗 View Original"

/-- The `parts` list assembled by `_create_formatted_message_requests`:
header, optional forward banner and original date, a blank line, optional
media line, optional body, optional link section, then blank line +
separator + blank line. -/
def msgParts (m : MessageData) : List String :=
  [headerLine m]
  ++ (if truthyS m.forward_from_channel_name then
        [forwardText m]
        ++ (if m.forward_original_date.isSome then [origDateLine m] else [])
      else [])
  ++ [""]
  ++ (if m.has_media then [mediaText m] else [])
  ++ (if m.text ≠ "" then [m.text] else [])
  ++ (if truthyS m.original_link then
        ["", viewLinkText]
        ++ (if truthyS m.forward_original_link then [viewForwardLinkText] else [])
      else [])
  ++ ["", MESSAGE_SEPARATOR, ""]

/-- Embeds `formatted_text = "\n".join(parts)`. -/
def renderMessage (m : MessageData) : String :=
  pyJoin "\n" (msgParts m)

/-- The style/link request list of `_create_formatted_message_requests`,
with the running position threaded exactly as the source's `current_pos`
walk (`+1` per newline, omitted sections skipped). -/
def messageFormatRequests (m : MessageData) (start_index : Nat) : List Request :=
  let header_end := start_index + (headerLine m).length
  let r1 := [Request.format start_index header_end true false (some 12)
    (some ColorRole.header)]
  let p1 := header_end + 1
  let fwd := truthyS m.forward_from_channel_name
  let forward_end := p1 + (forwardText m).length
  let r2 := if fwd then
    [Request.format p1 forward_end false true none (some ColorRole.forward)]
    else []
  let p2 := if fwd then forward_end + 1 else p1
  let hasOrig := fwd && m.forward_original_date.isSome
  let orig_end := p2 + (origDateLine m).length
  let r3 := if hasOrig then
    [Request.format p2 orig_end false true (some 10) (some ColorRole.date)]
    else []
  let p3 := if hasOrig then orig_end + 1 else p2
  let p4 := p3 + 1
  let media_end := p4 + (mediaText m).length
  let r4 := if m.has_media then
    [Request.format p4 media_end true false none (some ColorRole.media)]
    else []
  let p5 := if m.has_media then media_end + 1 else p4
  let r5 := if m.text ≠ "" then
    (extract_links m.text).map (fun x =>
      Request.link (p5 + x.2.1) (p5 + x.2.2) x.1)
    else []
  let p6 := if m.text ≠ "" then p5 + m.text.length + 1 else p5
  let hasLink := truthyS m.original_link
  let p7 := if hasLink then p6 + 1 else p6
  let link_end := p7 + viewLinkText.length
  let r6 := if hasLink then
    [Request.link p7 link_end (m.original_link.getD "")] else []
  let p8 := if hasLink then link_end + 1 else p7
  let hasFwdLink := hasLink && truthyS m.forward_original_link
  let r7 := if hasFwdLink then
    [Request.link p8 (p8 + viewForwardLinkText.length)
      (m.forward_original_link.getD "")] else []
  r1 ++ r2 ++ r3 ++ r4 ++ r5 ++ r6 ++ r7

/-- Embeds `_create_formatted_message_requests`: returns the rendered text together
with its style/link requests. -/
def create_formatted_message_requests (m : MessageData) (start_index : Nat) :
    String × List Request :=
  (renderMessage m, messageFormatRequests m start_index)

/-- One iteration of the `write_batch` message loop: insert the rendered
text at the cursor, append the style requests, and advance the cursor by the
rendered text's length. -/
def composeMessageStep (m : MessageData) (pos : Nat) : List Request × Nat :=
  let (text, freqs) := create_formatted_message_requests m pos
  (Request.insertText pos text :: freqs, pos + text.length)

/-! ### Batch composition (`GoogleDocsWriter.write_batch`) -/

/-- Constant `"─" * 60`. -/
def dashLine : String := String.mk (List.replicate 60 '─')

/-- The batch banner string built by `write_batch`. -/
def batchHeader (count : Nat) (now : Datetime) : String :=
  "\n📦 BATCH UPDATE - " ++ now.strftimeFull ++ " - " ++ toString count ++
    " messages\n" ++ dashLine ++ "\n"

/-- The batch footer string built by `write_batch`. -/
def batchFooter (now : Datetime) : String :=
  "\n" ++ dashLine ++ "\n✅ Batch completed at " ++ now.strftimeHMS ++ "\n\n"

/-- The `for i, message in enumerate(messages)` loop of `write_batch`:
returns the accumulated per-message requests and the final cursor. -/
def processMessagesLoop : List MessageData → Nat → List Request × Nat
  | [], pos => ([], pos)
  | m :: rest, pos =>
    let (text, freqs) := create_formatted_message_requests m pos
    let (rs, fin) := processMessagesLoop rest (pos + text.length)
    (Request.insertText pos text :: (freqs ++ rs), fin)

/-- The full request list submitted by `write_batch`: banner insert + banner
style at `current_length - 1`, the message loop, footer insert + footer
style. -/
def write_batch_requests (messages : List MessageData) (current_length : Nat)
    (now : Datetime) : List Request :=
  let header := batchHeader messages.length now
  let header_start := current_length - 1
  let header_end := header_start + header.length
  let (msgReqs, fin) := processMessagesLoop messages header_end
  let footer := batchFooter now
  [Request.insertText header_start header,
   Request.format header_start header_end true false (some 12)
     (some ColorRole.batch_header)]
  ++ msgReqs
  ++ [Request.insertText fin footer,
      Request.format fin (fin + footer.length) false true (some 10)
        (some ColorRole.batch_footer)]

/-- The request list `write_batch` submits in its `HttpError` fallback
branch: a single plain insertion of the *footer* string at the final cursor
(`fallback_requests = [self._create_insert_request(footer, current_position)]`). -/
def write_batch_fallback_requests (messages : List MessageData)
    (current_length : Nat) (now : Datetime) : List Request :=
  let header := batchHeader messages.length now
  let header_end := current_length - 1 + header.length
  let (_, fin) := processMessagesLoop messages header_end
  [Request.insertText fin (batchFooter now)]

/-! ### Claim-side layout descriptions -/

/-- Spec-side length accounting for one rendered message: every included
line contributes its length plus one unit for its newline; omitted optional
sections contribute zero.  (`pyJoin` emits one newline fewer than there are
lines, so the rendered length is this sum minus one.) -/
def renderedLengthSpec (m : MessageData) : Nat :=
  ((headerLine m).length + 1)
  + (if truthyS m.forward_from_channel_name then (forwardText m).length + 1 else 0)
  + (if truthyS m.forward_from_channel_name ∧ m.forward_original_date.isSome
      then (origDateLine m).length + 1 else 0)
  + 1
  + (if m.has_media then (mediaText m).length + 1 else 0)
  + (if m.text ≠ "" then m.text.length + 1 else 0)
  + (if truthyS m.original_link then
       1 + (viewLinkText.length + 1)
       + (if truthyS m.forward_original_link then viewForwardLinkText.length + 1 else 0)
     else 0)
  + 1 + (MESSAGE_SEPARATOR.length + 1) + 1

/-- Spec-side cursor recurrence of the batch composer: message `i+1`'s
starting cursor is message `i`'s starting cursor plus the length of message
`i`'s rendered text. -/
def msgStarts : List MessageData → Nat → List Nat
  | [], _ => []
  | m :: rest, pos => pos :: msgStarts rest (pos + (renderMessage m).length)

/-- Spec-side decomposition of the batch body: each message contributes its
insertion at its starting cursor followed by its style requests. -/
def msgBlocks : List MessageData → Nat → List Request
  | [], _ => []
  | m :: rest, pos =>
    (Request.insertText pos (renderMessage m) :: messageFormatRequests m pos)
      ++ msgBlocks rest (pos + (renderMessage m).length)

/-! ### Delivery pipeline and durable state (src/main.py, src/storage/state.py)

The durable state is modelled for the single configured channel
(`settings.telegram_channel_id`): `watermark` is the value stored under
`last_msg_<channel_id>`, `pending` the value under `pending_batch` (absent =
`none`; `get_pending_batch` defaults an absent record to `[]`), and
`processed`/`errors` the counters of the `stats` record. -/

/-- Application state visible to the flush/startup logic. -/
structure ArchState where
  buffer : List MessageData
  watermark : Option Int
  pending : Option (List MessageData)
  processed : Nat
  errors : Nat
deriving DecidableEq

/-- Outcome of one `gdocs.write_batch(...)` call as seen by `flush_buffer`:
the call returns a boolean, or raises (a `GoogleDocsError` after the retry
decorator exhausts its attempts). -/
inductive WriteOutcome
  | ok (b : Bool)
  | raised
deriving DecidableEq

/-- Outcome of a single `write_batch` attempt body, determined by whether
the styled `batchUpdate` succeeds and, if it raises `HttpError`, whether the
plain fallback `batchUpdate` succeeds: either way the attempt returns
`True`; if the fallback also raises, the attempt raises. -/
def write_batch_attempt (styledOk fallbackOk : Bool) : WriteOutcome :=
  if styledOk then WriteOutcome.ok true
  else if fallbackOk then WriteOutcome.ok true
  else WriteOutcome.raised

/-- Embeds `TelegramToGDocsArchiver.flush_buffer`: no-op on an empty buffer;
otherwise write the buffer (the returned `Option` records the message list
handed to the network call) and branch on the outcome:
on `True`, advance the watermark to the last buffered message's id, add the
batch size to the processed counter, clear the buffer and delete the pending
record; on `False`, save the buffer as the pending record; on an exception,
save the buffer as the pending record and bump the error counter. -/
def flush_buffer (s : ArchState) (w : WriteOutcome) :
    ArchState × Option (List MessageData) :=
  match h : s.buffer with
  | [] => (s, none)
  | m :: rest =>
    match w with
    | WriteOutcome.ok true =>
      ({ s with
          watermark := some ((m :: rest).getLast (by simp)).id,
          processed := s.processed + (m :: rest).length,
          buffer := [],
          pending := none }, some (m :: rest))
    | WriteOutcome.ok false =>
      ({ s with pending := some (m :: rest) }, some (m :: rest))
    | WriteOutcome.raised =>
      ({ s with pending := some (m :: rest), errors := s.errors + 1 },
        some (m :: rest))

/-- Externally observable actions of the startup sequence: a remote batch
write carrying the flushed messages, or a backfill fetch keyed by the
watermark id. -/
inductive Event
  | writeCall (msgs : List MessageData)
  | fetchCall (minId : Int)
deriving DecidableEq

/-- Wrap a flush result as an event list (one write call when the buffer was
non-empty, none otherwise). -/
def flushEvents (r : ArchState × Option (List MessageData)) :
    ArchState × List Event :=
  (r.1, match r.2 with
        | some msgs => [Event.writeCall msgs]
        | none => [])

/-- Embeds `TelegramToGDocsArchiver.process_pending`: read the pending record
(absent defaults to the empty list); when non-empty, *assign* it to the
buffer in its stored order and attempt one flush. -/
def process_pending (s : ArchState) (w : WriteOutcome) :
    ArchState × List Event :=
  match s.pending.getD [] with
  | [] => (s, [])
  | m :: rest => flushEvents (flush_buffer { s with buffer := m :: rest } w)

/-- Embeds `TelegramToGDocsArchiver.process_message`, iterated over a message list:
append each message to the buffer and flush whenever the buffer reaches the
configured batch size.  `wr` supplies the outcome of the `k`-th remote write
of the run. -/
def processMessages (batch_size : Nat) (wr : Nat → WriteOutcome) :
    List MessageData → ArchState → Nat → ArchState × List Event × Nat
  | [], s, k => (s, [], k)
  | m :: rest, s, k =>
    let s1 := { s with buffer := s.buffer ++ [m] }
    if batch_size ≤ s1.buffer.length then
      let (s2, evs) := flushEvents (flush_buffer s1 (wr k))
      let k2 := k + evs.length
      let (s3, evs2, k3) := processMessages batch_size wr rest s2 k2
      (s3, evs ++ evs2, k3)
    else
      processMessages batch_size wr rest s1 k

/-- Embeds `TelegramToGDocsArchiver.catch_up`: when a truthy watermark exists,
fetch messages newer than it (one `fetchCall` event; `fetched` is what the
chat client returns, newest first), feed them through `process_message` in
reversed (chronological) order, then flush any remainder. -/
def catch_up (batch_size : Nat) (wr : Nat → WriteOutcome) (k : Nat)
    (fetched : List MessageData) (s : ArchState) : ArchState × List Event :=
  match s.watermark with
  | none => (s, [])
  | some lastId =>
    if lastId ≠ 0 then
      if fetched ≠ [] then
        let (s1, evs, k1) := processMessages batch_size wr fetched.reverse s k
        let (s2, evs2) := flushEvents (flush_buffer s1 (wr k1))
        (s2, Event.fetchCall lastId :: (evs ++ evs2))
      else (s, [Event.fetchCall lastId])
    else (s, [])

/-- The startup portion of `TelegramToGDocsArchiver.run` that the claims
concern: `process_pending` first, then `catch_up`.  `w` is the outcome of
the pending-replay write; `wr` supplies the outcomes of the catch-up
writes. -/
def run_startup (s : ArchState) (w : WriteOutcome) (batch_size : Nat)
    (wr : Nat → WriteOutcome) (fetched : List MessageData) :
    ArchState × List Event :=
  let (s1, e1) := process_pending s w
  let (s2, e2) := catch_up batch_size wr 0 fetched s1
  (s2, e1 ++ e2)

/-- Claim-side: the cursor at which the first message of a batch starts
(right after the banner). -/
def batchBodyStart (messages : List MessageData) (current_length : Nat)
    (now : Datetime) : Nat :=
  current_length - 1 + (batchHeader messages.length now).length

/-- Claim-side: the cursor after the last message of a batch (where the
footer goes): the body start plus the total rendered length. -/
def batchEnd (messages : List MessageData) (current_length : Nat)
    (now : Datetime) : Nat :=
  batchBodyStart messages current_length now +
    ((messages.map fun m => (renderMessage m).length).sum)

/-! ### Helper lemmas -/

theorem pyJoin_cons_of_ne (sep x : String) {t : List String} (h : t ≠ []) :
    pyJoin sep (x :: t) = x ++ sep ++ pyJoin sep t := by
  cases t with
  | nil => exact absurd rfl h
  | cons y t' => rfl

theorem pyJoin_length (sep : String) :
    ∀ l : List String, l ≠ [] →
      (pyJoin sep l).length + sep.length =
        ((l.map fun s => s.length + sep.length)).sum := by
  intro l
  induction l with
  | nil => intro h; exact absurd rfl h
  | cons x t ih =>
    intro _
    cases t with
    | nil => simp [pyJoin]
    | cons y t' =>
      rw [pyJoin_cons_of_ne sep x (by simp)]
      have := ih (by simp)
      simp only [List.map_cons, List.sum_cons, String.length_append] at *
      omega

theorem pyJoin_sep_suffix (s : String) :
    ∀ l : List String,
      ("\n" ++ s ++ "\n").data <:+ (pyJoin "\n" (l ++ ["", s, ""])).data := by
  intro l
  induction l with
  | nil =>
    simp only [List.nil_append]
    show _ <:+ (pyJoin "\n" ["", s, ""]).data
    have : pyJoin "\n" ["", s, ""] = "" ++ "\n" ++ (s ++ "\n" ++ "") := rfl
    rw [this]
    simp [String.data_append]
  | cons x t ih =>
    have hne : t ++ ["", s, ""] ≠ [] := List.append_ne_nil_of_right_ne_nil t (by simp)
    rw [List.cons_append, pyJoin_cons_of_ne "\n" x hne]
    obtain ⟨pre, hpre⟩ := ih
    exact ⟨(x ++ "\n").data ++ pre, by
      simp only [String.data_append, List.append_assoc] at *
      rw [hpre]⟩

theorem finditer_start_ge {α : Type} (f : List Char → Option (Nat × α)) :
    ∀ (fuel : Nat) (s : List Char) (pos : Nat),
      ∀ x ∈ finditer f fuel s pos, pos ≤ x.1 := by
  intro fuel
  induction fuel with
  | zero => intro s pos x hx; simp [finditer] at hx
  | succ n ih =>
    intro s pos x hx
    cases s with
    | nil => simp [finditer] at hx
    | cons c rest =>
      rw [finditer] at hx
      cases hm : f (c :: rest) with
      | none =>
        rw [hm] at hx
        exact le_trans (Nat.le_succ pos) (ih rest (pos + 1) x hx)
      | some la =>
        obtain ⟨len, a⟩ := la
        rw [hm] at hx
        rcases List.mem_cons.mp hx with rfl | hx'
        · exact le_refl _
        · have := ih (rest.drop (len - 1)) (pos + len) x hx'
          omega

theorem finditer_pairwise {α : Type} (f : List Char → Option (Nat × α)) :
    ∀ (fuel : Nat) (s : List Char) (pos : Nat),
      (finditer f fuel s pos).Pairwise (fun x y => x.1 + x.2.1 ≤ y.1) := by
  intro fuel
  induction fuel with
  | zero => intro s pos; simp [finditer]
  | succ n ih =>
    intro s pos
    cases s with
    | nil => simp [finditer]
    | cons c rest =>
      rw [finditer]
      cases hm : f (c :: rest) with
      | none => exact ih rest (pos + 1)
      | some la =>
        obtain ⟨len, a⟩ := la
        refine List.Pairwise.cons ?_ (ih _ _)
        intro y hy
        exact finditer_start_ge f n _ (pos + len) y hy

theorem pairwise_filterMap_of {α β : Type} (f : α → Option β)
    {R : α → α → Prop} {S : β → β → Prop}
    (h : ∀ a b x y, f a = some x → f b = some y → R a b → S x y) :
    ∀ l : List α, l.Pairwise R → (l.filterMap f).Pairwise S := by
  intro l hl
  induction hl with
  | nil => simp
  | @cons a l' hr _ ih =>
    cases hfa : f a with
    | none => simpa [List.filterMap_cons, hfa] using ih
    | some b =>
      rw [List.filterMap_cons, hfa]
      refine List.Pairwise.cons ?_ ih
      intro y hy
      obtain ⟨x, hx, hxy⟩ := List.mem_filterMap.mp hy
      exact h a x b y hfa hxy (hr x hx)

theorem spanMap_some {r : Nat × Nat × List Char} {x : String × Nat × Nat}
    (h : (if clean_url (String.mk r.2.2) = "" then none
          else some (clean_url (String.mk r.2.2), r.1, r.1 + r.2.1)) = some x) :
    x.2.1 = r.1 ∧ x.2.2 = r.1 + r.2.1 := by
  split at h
  · exact absurd h (by simp)
  · rw [Option.some.injEq] at h
    subst h
    exact ⟨rfl, rfl⟩

theorem mdSpans_nonoverlap (text : String) :
    (mdSpans text).Pairwise (fun x y => x.2.2 ≤ y.2.1) := by
  refine pairwise_filterMap_of _ ?_ _
    (finditer_pairwise mdMatchAt text.data.length text.data 0)
  intro a b x y ha hb hab
  obtain ⟨ha1, ha2⟩ := spanMap_some ha
  obtain ⟨hb1, hb2⟩ := spanMap_some hb
  omega

theorem bareSpans_nonoverlap (text : String) :
    (bareSpans text).Pairwise (fun x y => x.2.2 ≤ y.2.1) := by
  refine pairwise_filterMap_of _ ?_ _
    (finditer_pairwise urlMatchAt text.data.length text.data 0)
  intro a b x y ha hb hab
  obtain ⟨ha1, ha2⟩ := spanMap_some ha
  obtain ⟨hb1, hb2⟩ := spanMap_some hb
  omega

theorem mdSpans_startChain (text : String) :
    List.Chain' (fun x y => x.2.1 ≤ y.2.1) (mdSpans text) := by
  refine List.Pairwise.chain' ?_
  refine pairwise_filterMap_of _ ?_ _
    (finditer_pairwise mdMatchAt text.data.length text.data 0)
  intro a b x y ha hb hab
  obtain ⟨ha1, _⟩ := spanMap_some ha
  obtain ⟨hb1, _⟩ := spanMap_some hb
  omega

theorem bareSpans_startChain (text : String) :
    List.Chain' (fun x y => x.2.1 ≤ y.2.1) (bareSpans text) := by
  refine List.Pairwise.chain' ?_
  refine pairwise_filterMap_of _ ?_ _
    (finditer_pairwise urlMatchAt text.data.length text.data 0)
  intro a b x y ha hb hab
  obtain ⟨ha1, _⟩ := spanMap_some ha
  obtain ⟨hb1, _⟩ := spanMap_some hb
  omega

theorem extract_links_split (text : String) :
    extract_links text = mdSpans text ++ bareSpans text := by
  by_cases h : text = ""
  · subst h
    rfl
  · simp [extract_links, h]

/-! ### Claim theorems -/

/-- Claim C8 (confirmed): URL normalization maps `"http https://foo.bar/)"`
to exactly `"https://foo.bar/"`: the doubled scheme prefix is collapsed and
the single trailing closing parenthesis is stripped because the rest of the
URL contains no parentheses. -/
theorem C8_clean_url_collapses_and_strips :
    clean_url "http https://foo.bar/)" = "https://foo.bar/" := by rfl

/-- Claim C3, counterexample: on `"[a](https://x.y/)"` the bare-URL pass
re-reports the URL already covered by the markup match — the returned list
holds two overlapping spans with the same normalized URL, so markup matches
do not take precedence and the list is not deduplicated by normalized
form. -/
theorem C3_counterexample_overlap_double_report :
    extract_links "[a](https://x.y/)" =
      [("https://x.y/", 0, 17), ("https://x.y/", 4, 17)] ∧
    ¬ ((extract_links "[a](https://x.y/)").map Prod.fst).Nodup := by
  refine ⟨by rfl, by decide⟩

/-- Claim C3 as amended: the extractor performs no overlap filtering and no
deduplication — it returns every markup-pass span followed by every
bare-URL-pass span (so a bare URL overlapping a markup match is reported
again); within each single pass, spans are non-overlapping
(each span ends at or before the next one starts). -/
theorem C3_amended_no_precedence_no_dedup (text : String) :
    extract_links text = mdSpans text ++ bareSpans text ∧
    (mdSpans text).Pairwise (fun x y => x.2.2 ≤ y.2.1) ∧
    (bareSpans text).Pairwise (fun x y => x.2.2 ≤ y.2.1) :=
  ⟨extract_links_split text, mdSpans_nonoverlap text, bareSpans_nonoverlap text⟩

/-- Claim C4, counterexample: on `"http://a.b [c](http://d.e)"` the returned
span list has start offsets `[11, 0, 15]` — the markup match (start 11)
precedes the earlier bare URL (start 0) in the list, so consecutive spans
are not ordered by start offset. -/
theorem C4_counterexample_unordered :
    ((extract_links "http://a.b [c](http://d.e)").map fun r => r.2.1) =
      [11, 0, 15] ∧
    ¬ List.Chain' (fun a b => a ≤ b)
      ((extract_links "http://a.b [c](http://d.e)").map fun r => r.2.1) := by
  have he : ((extract_links "http://a.b [c](http://d.e)").map fun r => r.2.1) =
      [11, 0, 15] := by rfl
  refine ⟨he, ?_⟩
  intro hc
  rw [he] at hc
  exact absurd (List.chain'_cons.mp hc).1 (by omega)

/-- Claim C4 as amended: the returned list is the markup-pass spans followed
by the bare-URL-pass spans, and it is left-to-right ordered *within each of
those two segments* (consecutive spans of a segment have non-decreasing
start offsets); the concatenated list as a whole need not be ordered. -/
theorem C4_amended_ordered_within_segments (text : String) :
    extract_links text = mdSpans text ++ bareSpans text ∧
    List.Chain' (fun x y => x.2.1 ≤ y.2.1) (mdSpans text) ∧
    List.Chain' (fun x y => x.2.1 ≤ y.2.1) (bareSpans text) :=
  ⟨extract_links_split text, mdSpans_startChain text, bareSpans_startChain text⟩

/-- Claim C1 (confirmed): a permanently failed batch write (the call raises
after its retries) leaves the watermark unchanged and writes the pending
record equal to the whole pre-flush buffer in order; a `False` return also
leaves the watermark unchanged; the watermark is set only on a confirmed
(`True`) write, and then to the last buffered message's id. -/
theorem C1_failed_flush_keeps_watermark (s : ArchState) (h : s.buffer ≠ []) :
    (flush_buffer s WriteOutcome.raised).1.watermark = s.watermark ∧
    (flush_buffer s WriteOutcome.raised).1.pending = some s.buffer ∧
    (flush_buffer s (WriteOutcome.ok false)).1.watermark = s.watermark ∧
    (flush_buffer s (WriteOutcome.ok true)).1.watermark =
      some ((s.buffer.getLast h).id) := by
  obtain ⟨buf, wm, pend, pr, er⟩ := s
  cases buf with
  | nil => exact absurd rfl h
  | cons m rest => exact ⟨rfl, rfl, rfl, rfl⟩

/-- Concrete timestamp used by the witness and counterexample inputs. -/
def exNow : Datetime := ⟨2024, 1, 2, 3, 4, 5⟩

/-- A minimal concrete message. -/
def exMsgA : MessageData :=
  { id := 10, text := "", date := exNow, channel_id := 7 }

/-- A concrete state with a non-empty buffer. -/
def exStateA : ArchState :=
  { buffer := [exMsgA], watermark := some 5, pending := none,
    processed := 3, errors := 0 }

/-- Witness for C1 at a concrete one-message buffer. -/
theorem C1_witness :
    exStateA.buffer ≠ [] ∧
    ((flush_buffer exStateA WriteOutcome.raised).1.watermark = exStateA.watermark ∧
     (flush_buffer exStateA WriteOutcome.raised).1.pending = some exStateA.buffer ∧
     (flush_buffer exStateA (WriteOutcome.ok false)).1.watermark = exStateA.watermark ∧
     (flush_buffer exStateA (WriteOutcome.ok true)).1.watermark =
       some ((exStateA.buffer.getLast (by decide)).id)) :=
  ⟨by decide, C1_failed_flush_keeps_watermark exStateA (by decide)⟩

/-- Claim C10 (confirmed): when the styled batch update is rejected and the
plain fallback succeeds, the attempt returns `True`, and the flush behaves
exactly as for a fully styled success: watermark advanced to the last
buffered message's id, processed count incremented by the batch size, buffer
emptied, pending record cleared — no durable trace of the degradation. -/
theorem C10_degraded_write_indistinguishable (s : ArchState) (h : s.buffer ≠ []) :
    write_batch_attempt false true = WriteOutcome.ok true ∧
    flush_buffer s (write_batch_attempt false true) =
      flush_buffer s (write_batch_attempt true true) ∧
    (flush_buffer s (write_batch_attempt false true)).1.watermark =
      some ((s.buffer.getLast h).id) ∧
    (flush_buffer s (write_batch_attempt false true)).1.processed =
      s.processed + s.buffer.length ∧
    (flush_buffer s (write_batch_attempt false true)).1.buffer = [] ∧
    (flush_buffer s (write_batch_attempt false true)).1.pending = none := by
  obtain ⟨buf, wm, pend, pr, er⟩ := s
  cases buf with
  | nil => exact absurd rfl h
  | cons m rest => exact ⟨rfl, rfl, rfl, rfl, rfl, rfl⟩

/-- A second concrete message. -/
def exMsgB : MessageData :=
  { id := 11, text := "hi", date := exNow, channel_id := 7 }

/-- A concrete state with a two-message buffer. -/
def exStateB : ArchState :=
  { buffer := [exMsgA, exMsgB], watermark := some 5, pending := none,
    processed := 3, errors := 0 }

/-- Witness for C10 at a concrete two-message buffer. -/
theorem C10_witness :
    exStateB.buffer ≠ [] ∧
    (write_batch_attempt false true = WriteOutcome.ok true ∧
     flush_buffer exStateB (write_batch_attempt false true) =
       flush_buffer exStateB (write_batch_attempt true true) ∧
     (flush_buffer exStateB (write_batch_attempt false true)).1.watermark =
       some ((exStateB.buffer.getLast (by decide)).id) ∧
     (flush_buffer exStateB (write_batch_attempt false true)).1.processed =
       exStateB.processed + exStateB.buffer.length ∧
     (flush_buffer exStateB (write_batch_attempt false true)).1.buffer = [] ∧
     (flush_buffer exStateB (write_batch_attempt false true)).1.pending = none) :=
  ⟨by decide, C10_degraded_write_indistinguishable exStateB (by decide)⟩

/-- Claim C7, counterexample: the batch composer invoked on an *empty*
message list does not yield an empty operation list — it still emits the
banner insertion, banner style, footer insertion and footer style (4
operations); the empty-buffer guard lives in the flush, not the composer. -/
theorem C7_counterexample_composer_not_empty :
    write_batch_requests [] 1 exNow ≠ [] ∧
    (write_batch_requests [] 1 exNow).length = 4 := by
  refine ⟨?_, by rfl⟩
  intro hc
  exact absurd (congrArg List.length hc) (by decide)

/-- Claim C7 as amended: a flush with an empty buffer is a no-op that makes
no network call — `flush_buffer` returns the state unchanged and records no
write call, so the batch composer is never invoked; the composer itself,
applied to an empty message list, still emits the banner and footer (see the
counterexample). -/
theorem C7_amended_empty_flush_noop (s : ArchState) (w : WriteOutcome)
    (h : s.buffer = []) : flush_buffer s w = (s, none) := by
  obtain ⟨buf, wm, pend, pr, er⟩ := s
  cases buf with
  | nil => rfl
  | cons m rest => simp at h

/-- A concrete state with an empty buffer. -/
def exStateEmpty : ArchState :=
  { buffer := [], watermark := some 5, pending := none,
    processed := 3, errors := 1 }

/-- Witness for the amended C7 at a concrete empty-buffer state. -/
theorem C7_witness :
    exStateEmpty.buffer = [] ∧
    flush_buffer exStateEmpty WriteOutcome.raised = (exStateEmpty, none) :=
  ⟨by decide, C7_amended_empty_flush_noop exStateEmpty WriteOutcome.raised (by decide)⟩

/-- Claim C9 (confirmed): on startup with a non-empty pending record `p`,
`process_pending` issues exactly one write call carrying `p` in its stored
order, and the whole startup event trace is that write call followed by the
catch-up trace — so the pending replay precedes any watermark-based backfill
fetch. -/
theorem C9_pending_replay_first (s : ArchState) (p : List MessageData)
    (w : WriteOutcome) (batch_size : Nat) (wr : Nat → WriteOutcome)
    (fetched : List MessageData) (hp : s.pending = some p) (hne : p ≠ []) :
    (process_pending s w).2 = [Event.writeCall p] ∧
    (run_startup s w batch_size wr fetched).2 =
      Event.writeCall p ::
        (catch_up batch_size wr 0 fetched (process_pending s w).1).2 := by
  obtain ⟨m, rest, rfl⟩ : ∃ m rest, p = m :: rest := by
    cases p with
    | nil => exact absurd rfl hne
    | cons m rest => exact ⟨m, rest, rfl⟩
  have hev : (process_pending s w).2 = [Event.writeCall (m :: rest)] := by
    unfold process_pending
    rw [hp]
    cases w with
    | ok b => cases b <;> rfl
    | raised => rfl
  refine ⟨hev, ?_⟩
  unfold run_startup
  simp only [hev, List.singleton_append]

/-- A concrete state with a non-empty pending record. -/
def exStateP : ArchState :=
  { buffer := [], watermark := some 9, pending := some [exMsgA, exMsgB],
    processed := 0, errors := 0 }

/-- Witness for C9 at a concrete pending record of two messages. -/
theorem C9_witness :
    exStateP.pending = some [exMsgA, exMsgB] ∧ ([exMsgA, exMsgB] ≠ ([] : List MessageData)) ∧
    ((process_pending exStateP WriteOutcome.raised).2 =
       [Event.writeCall [exMsgA, exMsgB]] ∧
     (run_startup exStateP WriteOutcome.raised 5 (fun _ => WriteOutcome.raised) []).2 =
       Event.writeCall [exMsgA, exMsgB] ::
         (catch_up 5 (fun _ => WriteOutcome.raised) 0 []
           (process_pending exStateP WriteOutcome.raised).1).2) :=
  ⟨by decide, by decide,
    C9_pending_replay_first exStateP [exMsgA, exMsgB] WriteOutcome.raised 5
      (fun _ => WriteOutcome.raised) [] (by decide) (by decide)⟩

/-- The concrete failing input for C2: a one-message batch whose styled
update is rejected. -/
def exMsgC2 : MessageData :=
  { id := 1, text := "hello", date := exNow, channel_id := 7 }

/-- Claim C2 (code bug): on rejection of the styled batch, `write_batch`'s
fallback submits a single insertion containing only the batch *footer* — the
rendered texts of the buffered messages are not inserted at all (the
message's text does not even occur in the inserted string), even though the
code then logs that the batch of messages was written. -/
theorem C2_fallback_drops_messages :
    write_batch_fallback_requests [exMsgC2] 1 exNow =
      [Request.insertText
        (1 - 1 + (batchHeader 1 exNow).length + (renderMessage exMsgC2).length)
        (batchFooter exNow)] ∧
    (write_batch_fallback_requests [exMsgC2] 1 exNow).length = 1 ∧
    ¬ (exMsgC2.text.data <:+: (batchFooter exNow).data) := by
  refine ⟨by rfl, by rfl, by decide⟩

theorem msgParts_tail_ne (m : MessageData) :
    ∃ t, msgParts m = headerLine m :: t ∧ t ≠ [] := by
  unfold msgParts
  refine ⟨_, rfl, ?_⟩
  simp

theorem renderMessage_starts_with_header (m : MessageData) :
    ∃ t, renderMessage m = headerLine m ++ t := by
  obtain ⟨t, ht, htne⟩ := msgParts_tail_ne m
  refine ⟨"\n" ++ pyJoin "\n" t, ?_⟩
  rw [renderMessage, ht, pyJoin_cons_of_ne "\n" (headerLine m) htne,
    String.append_assoc]

theorem renderMessage_sep_suffix (m : MessageData) :
    ("\n" ++ MESSAGE_SEPARATOR ++ "\n").data <:+ (renderMessage m).data := by
  unfold renderMessage msgParts
  exact pyJoin_sep_suffix MESSAGE_SEPARATOR _

theorem renderMessage_length_spec (m : MessageData) :
    (renderMessage m).length + 1 = renderedLengthSpec m := by
  obtain ⟨t, ht, htne⟩ := msgParts_tail_ne m
  have h := pyJoin_length "\n" (msgParts m) (by rw [ht]; simp)
  simp only [show ("\n" : String).length = 1 from rfl] at h
  rw [renderMessage, h]
  unfold msgParts renderedLengthSpec
  cases hF : truthyS m.forward_from_channel_name <;>
    cases hO : m.forward_original_date.isSome <;>
      cases hM : m.has_media <;>
        cases hL : truthyS m.original_link <;>
          cases hFL : truthyS m.forward_original_link <;>
            by_cases hT : m.text = "" <;>
              simp [hF, hO, hM, hL, hFL, hT] <;> omega

/-- Claim C6 (confirmed): for every message — including one with empty text
and no media — the rendered text starts with the header line and carries the
newline-delimited visual separator section, the composer's ending cursor is
the starting cursor plus the exact rendered length, and that length obeys
the per-line accounting (each included line contributes its length plus one
newline unit, omitted optional sections contribute zero; the final newline
is not emitted, hence the `+ 1`). -/
theorem C6_layout_wellformed (m : MessageData) (pos : Nat) :
    (∃ t, (create_formatted_message_requests m pos).1 = headerLine m ++ t) ∧
    ("\n" ++ MESSAGE_SEPARATOR ++ "\n").data <:+
      (create_formatted_message_requests m pos).1.data ∧
    (composeMessageStep m pos).2 =
      pos + (create_formatted_message_requests m pos).1.length ∧
    (create_formatted_message_requests m pos).1.length + 1 =
      renderedLengthSpec m :=
  ⟨renderMessage_starts_with_header m, renderMessage_sep_suffix m, rfl,
    renderMessage_length_spec m⟩

theorem processMessagesLoop_eq : ∀ (msgs : List MessageData) (pos : Nat),
    processMessagesLoop msgs pos =
      (msgBlocks msgs pos,
        pos + ((msgs.map fun m => (renderMessage m).length)).sum) := by
  intro msgs
  induction msgs with
  | nil => intro pos; simp [processMessagesLoop, msgBlocks]
  | cons m rest ih =>
    intro pos
    simp only [processMessagesLoop, create_formatted_message_requests, msgBlocks,
      ih, List.map_cons, List.sum_cons, List.cons_append, Prod.mk.injEq]
    exact ⟨trivial, by omega⟩

theorem msgStarts_all_ge : ∀ (msgs : List MessageData) (pos : Nat) (y : Nat),
    y ∈ msgStarts msgs pos ++
      [pos + ((msgs.map fun m => (renderMessage m).length)).sum] → pos ≤ y := by
  intro msgs
  induction msgs with
  | nil =>
    intro pos y hy
    simp [msgStarts] at hy
    omega
  | cons m rest ih =>
    intro pos y hy
    rw [List.map_cons, List.sum_cons, ← Nat.add_assoc] at hy
    simp only [msgStarts, List.cons_append, List.mem_cons] at hy
    rcases hy with rfl | hy
    · exact le_refl _
    · have h2 := ih (pos + (renderMessage m).length) y hy
      omega

theorem msgStarts_cursor_chain : ∀ (msgs : List MessageData) (pos : Nat),
    List.Chain' (fun a b => a ≤ b)
      (msgStarts msgs pos ++
        [pos + ((msgs.map fun m => (renderMessage m).length)).sum]) := by
  intro msgs
  induction msgs with
  | nil => intro pos; simp [msgStarts]
  | cons m rest ih =>
    intro pos
    rw [List.map_cons, List.sum_cons, ← Nat.add_assoc]
    simp only [msgStarts, List.cons_append]
    rw [List.chain'_cons']
    refine ⟨?_, ih (pos + (renderMessage m).length)⟩
    intro y hy
    have hmem := List.mem_of_mem_head? hy
    have := msgStarts_all_ge rest (pos + (renderMessage m).length) y hmem
    omega

/-- Claim C5 (confirmed): for a non-empty batch, the composed request list
is exactly banner insertion + banner style, then for each message its
insertion and style requests at a cursor threaded by the claim's recurrence
(message `i+1` starts where message `i` started plus message `i`'s rendered
length, captured by `msgBlocks`/`msgStarts`), then the footer insertion +
footer style at the body start plus the total rendered length; and the
cursor values are monotonically non-decreasing across the whole batch. -/
theorem C5_batch_composition (messages : List MessageData)
    (current_length : Nat) (now : Datetime) (_h : messages ≠ []) :
    write_batch_requests messages current_length now =
      [Request.insertText (current_length - 1) (batchHeader messages.length now),
       Request.format (current_length - 1)
         (batchBodyStart messages current_length now)
         true false (some 12) (some ColorRole.batch_header)]
      ++ msgBlocks messages (batchBodyStart messages current_length now)
      ++ [Request.insertText (batchEnd messages current_length now)
            (batchFooter now),
          Request.format (batchEnd messages current_length now)
            (batchEnd messages current_length now + (batchFooter now).length)
            false true (some 10) (some ColorRole.batch_footer)] ∧
    List.Chain' (fun a b => a ≤ b)
      ((current_length - 1) ::
        (msgStarts messages (batchBodyStart messages current_length now) ++
          [batchEnd messages current_length now])) := by
  constructor
  · simp only [write_batch_requests]
    rw [processMessagesLoop_eq]
    rfl
  · rw [List.chain'_cons']
    refine ⟨?_, ?_⟩
    · intro y hy
      have hmem := List.mem_of_mem_head? hy
      have hge := msgStarts_all_ge messages
        (batchBodyStart messages current_length now) y (by
          simpa [batchEnd] using hmem)
      have : current_length - 1 ≤ batchBodyStart messages current_length now :=
        Nat.le_add_right _ _
      omega
    · simpa [batchEnd] using
        msgStarts_cursor_chain messages (batchBodyStart messages current_length now)

/-- Concrete messages with ids 11 and 12 for the C5 witness (the spec's
three-message example has ids 10, 11, 12; `exMsgA` has id 10). -/
def exMsg11 : MessageData :=
  { id := 11, text := "", date := exNow, channel_id := 7 }

/-- Concrete message with id 12 for the C5 witness. -/
def exMsg12 : MessageData :=
  { id := 12, text := "", date := exNow, channel_id := 7 }

/-- Witness for C5 at the concrete three-message batch (ids 10, 11, 12). -/
theorem C5_witness :
    ([exMsgA, exMsg11, exMsg12] ≠ ([] : List MessageData)) ∧
    (write_batch_requests [exMsgA, exMsg11, exMsg12] 1 exNow =
      [Request.insertText (1 - 1) (batchHeader 3 exNow),
       Request.format (1 - 1)
         (batchBodyStart [exMsgA, exMsg11, exMsg12] 1 exNow)
         true false (some 12) (some ColorRole.batch_header)]
      ++ msgBlocks [exMsgA, exMsg11, exMsg12]
          (batchBodyStart [exMsgA, exMsg11, exMsg12] 1 exNow)
      ++ [Request.insertText (batchEnd [exMsgA, exMsg11, exMsg12] 1 exNow)
            (batchFooter exNow),
          Request.format (batchEnd [exMsgA, exMsg11, exMsg12] 1 exNow)
            (batchEnd [exMsgA, exMsg11, exMsg12] 1 exNow +
              (batchFooter exNow).length)
            false true (some 10) (some ColorRole.batch_footer)] ∧
     List.Chain' (fun a b => a ≤ b)
       ((1 - 1) ::
         (msgStarts [exMsgA, exMsg11, exMsg12]
             (batchBodyStart [exMsgA, exMsg11, exMsg12] 1 exNow) ++
           [batchEnd [exMsgA, exMsg11, exMsg12] 1 exNow]))) :=
  ⟨by decide, C5_batch_composition [exMsgA, exMsg11, exMsg12] 1 exNow (by decide)⟩

end Archiver
